import Mathlib

/-!
Verification development for the mcp-aruba-email repository.

The Python modules `src/mcp_aruba/email_client.py`, `src/mcp_aruba/signature.py`
and `src/mcp_aruba/server.py` are shallowly embedded below.  Python strings are
modelled as lists of characters (`Str`), Python byte strings as lists of
naturals, an email message (`email.message.Message`) as a rose tree of MIME
parts, and the IMAP mailbox as an association list from message ids to raw
messages.  External library calls that the repository merely invokes
(`html2text`, `email.header.decode_header`, `bytes.decode`) are abstracted as
function parameters bundled in `Libs`; network effects (DNS, SMTP, IMAP append)
are abstracted as explicit outcome values supplied through `SendEnv`.
-/

set_option maxRecDepth 20000

namespace Aruba

/-- Python `str` values are modelled as lists of characters. -/
abbrev Str := List Char

/-- Python `bytes` values are modelled as lists of naturals. -/
abbrev Bytes := List Nat

/-- Coerce a Lean string literal into the `Str` model. -/
def lit (s : String) : Str := s.data

/-- Test whether `needle` occurs at the start of `hay`
(Python `hay.startswith(needle)`). -/
def leadsWith : Str → Str → Bool
  | [], _ => true
  | _ :: _, [] => false
  | a :: as, b :: bs => a = b && leadsWith as bs

/-- Python substring containment `needle in hay`. -/
def subIn (needle : Str) : Str → Bool
  | [] => needle.isEmpty
  | c :: rest => leadsWith needle (c :: rest) || subIn needle rest

/-- Characters stripped by Python `str.strip()` with no arguments: the code
points on which `str.isspace()` holds (ASCII whitespace, the ASCII separator
controls 0x1c-0x1f, NEL, NBSP, Ogham space mark, the Unicode space
separators, and the line and paragraph separators). -/
def pyIsSpace (c : Char) : Bool :=
  (0x09 ≤ c.toNat && c.toNat ≤ 0x0d) ||
  (0x1c ≤ c.toNat && c.toNat ≤ 0x1f) ||
  c.toNat = 0x20 || c.toNat = 0x85 || c.toNat = 0xa0 || c.toNat = 0x1680 ||
  (0x2000 ≤ c.toNat && c.toNat ≤ 0x200a) ||
  c.toNat = 0x2028 || c.toNat = 0x2029 || c.toNat = 0x202f ||
  c.toNat = 0x205f || c.toNat = 0x3000

/-- Python `s.strip()`: remove leading and trailing whitespace. -/
def pyStrip (s : Str) : Str :=
  ((s.dropWhile pyIsSpace).reverse.dropWhile pyIsSpace).reverse

/-- Python `s.replace(old_char, new)` for a single-character pattern. -/
def pyReplaceChar (s : Str) (old : Char) (new : Str) : Str :=
  s.flatMap (fun c => if c = old then new else [c])

/-!
## MIME message model

`email.message.Message` objects are trees: a leaf carries a decoded payload,
a multipart node carries child parts.  `PartData` records exactly the fields
the embedded code reads: `get_content_type()`, `str(get("Content-Disposition",
""))`, `get_filename()`, `get_payload(decode=True)` (as `Option Bytes`, `none`
when the library returns `None`), `str(get_payload())` for the undecodable
fallback in `_parse_email`, and the headers consulted via `msg.get(name, "")`.
-/

structure PartData where
  contentType : Str
  contentDisposition : Str
  filename : Option Str
  payload : Option Bytes
  rawPayloadStr : Str
  headers : List (Str × Str)
deriving Repr, DecidableEq

/-- A MIME message: either a simple part or a multipart container. -/
inductive Msg where
  | leaf (d : PartData)
  | multi (d : PartData) (children : List Msg)

/-- Field data of the root part. -/
def Msg.data : Msg → PartData
  | .leaf d => d
  | .multi d _ => d

/-- Python `msg.is_multipart()`. -/
def Msg.isMultipart : Msg → Bool
  | .leaf _ => false
  | .multi _ _ => true

/-- Python `msg.get_payload(decode=True)`: `None` on a multipart container. -/
def Msg.payloadBytes : Msg → Option Bytes
  | .leaf d => d.payload
  | .multi _ _ => none

/-- Python `msg.get(name, "")` over the modelled header list. -/
def getHeader (d : PartData) (name : Str) : Str :=
  ((d.headers.find? (fun p => decide (p.1 = name))).map (·.2)).getD []

mutual

/-- Python `msg.walk()`: depth-first preorder traversal, the message itself
first, then each child subtree. -/
def Msg.walk : Msg → List Msg
  | .leaf d => [.leaf d]
  | .multi d cs => .multi d cs :: walkList cs

/-- Traversal of a list of sibling parts, in order. -/
def walkList : List Msg → List Msg
  | [] => []
  | m :: ms => m.walk ++ walkList ms

end

/-!
## External library abstraction

`html2text.HTML2Text().handle(...).strip()` (wrapped by `_html_to_text`),
`email.header.decode_header` plus per-word charset decoding (wrapped by
`_decode_header`), and `bytes.decode("utf-8", errors="replace")` are library
functions outside this repository; they are taken as opaque parameters.
-/

structure Libs where
  htmlToText : Str → Str
  decodeHeader : Str → Str
  decodeUtf8 : Bytes → Str

/-!
## Attachment enumeration and download (`email_client.py` lines 107-139 and
305-358)
-/

/-- Record built by `_extract_attachments_info` for each attachment part. -/
structure AttInfo where
  index : Nat
  filename : Str
  contentType : Str
  size : Nat
deriving Repr, DecidableEq

/-- Python `"attachment" in cd or "inline" in cd`. -/
def dispositionMarksAttachment (cd : Str) : Bool :=
  subIn (lit "attachment") cd || subIn (lit "inline") cd

/-- Embedding of `ArubaEmailClient._extract_attachments_info`: enumerate
`msg.walk()`, and for every part whose disposition marks it attachment or
inline and which carries a filename, record the enumeration position `idx`,
the decoded filename, the content type and the decoded payload size. -/
def extractAttachmentsInfo (dh : Str → Str) (msg : Msg) : List AttInfo :=
  if ¬ msg.isMultipart then []
  else
    msg.walk.enum.filterMap fun (idx, part) =>
      if dispositionMarksAttachment part.data.contentDisposition then
        match part.data.filename with
        | some fn =>
            some { index := idx
                   filename := dh fn
                   contentType := part.data.contentType
                   size := ((part.payloadBytes).getD []).length }
        | none => none
      else none

/-- Result record of `download_attachment` (the `data_base64` field is kept as
the raw decoded bytes; base64 is a bijective transport encoding). -/
structure DownloadResult where
  filename : Str
  contentType : Str
  size : Nat
  dataBytes : Bytes
deriving Repr, DecidableEq

/-- Loop of `download_attachment`: scan the walked parts keeping a counter
`current_idx` that is incremented only on attachment parts carrying a
filename; return the part at which the counter equals the requested index. -/
def downloadLoop (dh : Str → Str) (attachmentIndex : Nat) :
    List Msg → Nat → Option DownloadResult
  | [], _ => none
  | part :: rest, currentIdx =>
      if dispositionMarksAttachment part.data.contentDisposition then
        match part.data.filename with
        | some fn =>
            if currentIdx = attachmentIndex then
              match part.payloadBytes with
              | some data =>
                  some { filename := dh fn
                         contentType := part.data.contentType
                         size := data.length
                         dataBytes := data }
              | none => none
            else downloadLoop dh attachmentIndex rest (currentIdx + 1)
        | none => downloadLoop dh attachmentIndex rest currentIdx
      else downloadLoop dh attachmentIndex rest currentIdx

/-- Embedding of `ArubaEmailClient.download_attachment` after a successful
fetch of the message: `none` models the raised exception (no attachments,
missing payload, or index not found). -/
def downloadAttachment (dh : Str → Str) (msg : Msg) (attachmentIndex : Nat) :
    Option DownloadResult :=
  if ¬ msg.isMultipart then none
  else downloadLoop dh attachmentIndex msg.walk 0

/-!
## Body extraction (`email_client.py` lines 141-198, `_parse_email`)
-/

/-- Loop of `_parse_email` over `msg.walk()` for a multipart message,
threading the `plain_body` and `html_body` accumulators: a part contributes
its decoded text to the html accumulator if it is `text/html` and the
accumulator is still empty, else to the plain accumulator if it is
`text/plain` and that accumulator is still empty. -/
def collectLoop (libs : Libs) : List Msg → Str → Str → Str × Str
  | [], plainBody, htmlBody => (plainBody, htmlBody)
  | part :: rest, plainBody, htmlBody =>
      match part.payloadBytes with
      | none => collectLoop libs rest plainBody htmlBody
      | some bytes =>
          let decoded := libs.decodeUtf8 bytes
          if part.data.contentType = lit "text/html" ∧ htmlBody = [] then
            collectLoop libs rest plainBody decoded
          else if part.data.contentType = lit "text/plain" ∧ plainBody = [] then
            collectLoop libs rest decoded htmlBody
          else collectLoop libs rest plainBody htmlBody

/-- Body selection of `_parse_email` before the size cap: walk a multipart
message collecting the first html and plain texts (a single-part message
contributes its sole payload under its own content type, falling back to
`str(get_payload())` when the decoded payload is absent), then prefer the
converted html text, else the plain text, else the empty string. -/
def extractBody (libs : Libs) (msg : Msg) : Str :=
  let collected :=
    if msg.isMultipart then collectLoop libs msg.walk [] []
    else
      let raw :=
        match msg.payloadBytes with
        | some bytes => libs.decodeUtf8 bytes
        | none => msg.data.rawPayloadStr
      if msg.data.contentType = lit "text/html" then ([], raw) else (raw, [])
  let plainBody := collected.1
  let htmlBody := collected.2
  if htmlBody ≠ [] then libs.htmlToText htmlBody
  else if plainBody ≠ [] then plainBody
  else []

/-- Record produced by `_parse_email`. -/
structure EmailRecord where
  fromAddr : Str
  toAddr : Str
  subject : Str
  date : Str
  body : Str
  attachments : List AttInfo
deriving Repr, DecidableEq

/-- Embedding of `ArubaEmailClient._parse_email`: decode the address and
subject headers, select the body and cap it at 5000 characters, and attach
the enumeration of attachment metadata. -/
def parseEmail (libs : Libs) (msg : Msg) : EmailRecord :=
  { fromAddr := libs.decodeHeader (getHeader msg.data (lit "From"))
    toAddr := libs.decodeHeader (getHeader msg.data (lit "To"))
    subject := libs.decodeHeader (getHeader msg.data (lit "Subject"))
    date := getHeader msg.data (lit "Date")
    body := (extractBody libs msg).take 5000
    attachments := extractAttachmentsInfo libs.decodeHeader msg }

/-- Decoded text of a part when its content type crit `ct` and its payload
is present; used to characterise what the collection loop computes. -/
def partText (libs : Libs) (ct : Str) (part : Msg) : Option Str :=
  if part.data.contentType = ct then part.payloadBytes.map libs.decodeUtf8
  else none

/-- First nonempty decoded `text/html` payload among the walked parts. -/
def firstHtmlText (libs : Libs) (msg : Msg) : Option Str :=
  ((msg.walk.filterMap (partText libs (lit "text/html"))).find?
    (fun s => !s.isEmpty))

/-- First nonempty decoded `text/plain` payload among the walked parts. -/
def firstPlainText (libs : Libs) (msg : Msg) : Option Str :=
  ((msg.walk.filterMap (partText libs (lit "text/plain"))).find?
    (fun s => !s.isEmpty))

/-!
## Listing and searching (`email_client.py` lines 200-248 and 389-442,
`server.py` lines 49-81 and 108-143)

The IMAP folder is modelled as an association list from message ids to raw
messages, kept in mailbox order (the server returns search results in
ascending id order).  The search criteria (`ALL`, `FROM "x"`,
`OR SUBJECT "q" BODY "q"` with optional `SINCE`) are server-side matching
semantics, abstracted as a predicate on messages.
-/

/-- IMAP folder model: `(id, raw message)` entries in mailbox order. -/
abbrev Mailbox := List (Nat × Msg)

/-- Result of `self._connection.search(...)`: ids of the matching messages
in mailbox (ascending id) order. -/
def searchMailbox (mb : Mailbox) (crit : Msg → Bool) : List Nat :=
  (mb.filter (fun e => crit e.2)).map (·.1)

/-- Result of `self._connection.fetch(email_id, "(RFC822)")`. -/
def fetchMsg (mb : Mailbox) (i : Nat) : Option Msg :=
  (mb.find? (fun e => decide (e.1 = i))).map (·.2)

/-- Shared loop of `list_emails` and `search_emails`: reverse the search
result so the most recent id comes first, take at most `limit` ids, fetch
each (skipping failed fetches), parse, and tag each record with its id. -/
def listEmailsCore (libs : Libs) (mb : Mailbox) (crit : Msg → Bool)
    (limit : Nat) : List (Nat × EmailRecord) :=
  ((searchMailbox mb crit).reverse.take limit).filterMap
    (fun i => (fetchMsg mb i).map (fun raw => (i, parseEmail libs raw)))

/-- Embedding of `ArubaEmailClient.list_emails` (criteria `ALL` or
`FROM "sender"`, abstracted as `crit`). -/
def list_emails (libs : Libs) (mb : Mailbox) (crit : Msg → Bool)
    (limit : Nat) : List (Nat × EmailRecord) :=
  listEmailsCore libs mb crit limit

/-- Embedding of `ArubaEmailClient.search_emails` (criteria
`OR SUBJECT "q" BODY "q"` with optional `SINCE`, abstracted as `crit`). -/
def search_emails (libs : Libs) (mb : Mailbox) (crit : Msg → Bool)
    (limit : Nat) : List (Nat × EmailRecord) :=
  listEmailsCore libs mb crit limit

/-- Embedding of the `list_emails` tool in `server.py`: the limit is capped
with `limit = min(limit, 50)` before delegating to the client. -/
def serverListEmails (libs : Libs) (mb : Mailbox) (crit : Msg → Bool)
    (limit : Nat) : List (Nat × EmailRecord) :=
  list_emails libs mb crit (min limit 50)

/-- Embedding of the `search_emails` tool in `server.py`: the limit is capped
with `limit = min(limit, 50)` before delegating to the client. -/
def serverSearchEmails (libs : Libs) (mb : Mailbox) (crit : Msg → Bool)
    (limit : Nat) : List (Nat × EmailRecord) :=
  search_emails libs mb crit (min limit 50)

/-!
## Signature store (`signature.py`)

The JSON file at the fixed per-user path holds one object mapping signature
names to texts; it is modelled as an association list without duplicate keys,
wrapped in `Option` (`none` models an absent file).  The `json.dump` /
`json.load` round trip is taken as faithful.
-/

/-- The parsed content of `signature.json`: a Python dict from names to
signature texts. -/
abbrev SigMap := List (Str × Str)

/-- File-system state of the signature store: `none` when the file does not
exist. -/
abbrev SigStore := Option SigMap

/-- Python `signatures.get(name)`. -/
def dictGet (m : SigMap) (k : Str) : Option Str :=
  (m.find? (fun p => decide (p.1 = k))).map (·.2)

/-- Python `signatures[name] = signature`: update the entry in place when the
key is present, else append a new entry. -/
def dictSet (m : SigMap) (k v : Str) : SigMap :=
  if m.any (fun p => decide (p.1 = k)) then
    m.map (fun p => if p.1 = k then (p.1, v) else p)
  else m ++ [(k, v)]

/-- Python `del signatures[name]`. -/
def dictDel (m : SigMap) (k : Str) : SigMap :=
  m.filter (fun p => decide (p.1 ≠ k))

/-- Embedding of `save_signature`: load the existing map (an absent file
yields the empty map), set the key, write back. -/
def save_signature (signatureText : Str) (name : Str) (st : SigStore) :
    SigStore :=
  some (dictSet (st.getD []) name signatureText)

/-- Embedding of `get_signature`: `None` when the file is absent, else the
map lookup. -/
def get_signature (name : Str) (st : SigStore) : Option Str :=
  match st with
  | none => none
  | some m => dictGet m name

/-- Embedding of `delete_signature`: returns whether the key existed and was
removed, together with the resulting store state. -/
def delete_signature (name : Str) (st : SigStore) : Bool × SigStore :=
  match st with
  | none => (false, none)
  | some m =>
      if m.any (fun p => decide (p.1 = name)) then (true, some (dictDel m name))
      else (false, some m)

/-!
## Recipient verification (`email_client.py` lines 444-532,
`verify_email_exists`)

The network interaction (DNS MX lookup, SMTP probe on port 25) is abstracted
as a `ProbeOutcome` value: the MX lookup raised, the SMTP conversation raised
a socket/SMTP error, or the `RCPT TO` command returned a response code.
-/

/-- The tri-state `exists` field (`True` / `False` / `"unknown"`). -/
inductive Exists3 where
  | yes
  | no
  | unknown
deriving Repr, DecidableEq

/-- Verification result dictionary. -/
structure VerificationResult where
  email : Str
  existsFlag : Exists3
  reason : Str
  smtpCode : Option Nat
  method : Str
deriving Repr, DecidableEq

/-- Abstract outcome of the network side of the probe. -/
inductive ProbeOutcome where
  | mxFailure
  | smtpError (msg : Str)
  | response (code : Nat) (message : Str)
deriving Repr, DecidableEq

/-- Embedding of `ArubaEmailClient.verify_email_exists`: an MX lookup failure
or a socket/SMTP error yields `unknown`; a `RCPT TO` response is classified
as 250 → exists, 550/551/553 → does not exist, anything else → unknown. -/
def verify_email_exists (addr : Str) (outcome : ProbeOutcome) :
    VerificationResult :=
  match outcome with
  | .mxFailure =>
      { email := addr
        existsFlag := .unknown
        reason := lit "Could not find mail server for domain"
        smtpCode := none
        method := lit "mx_lookup" }
  | .smtpError m =>
      { email := addr
        existsFlag := .unknown
        reason := lit "Mail server did not respond or blocked verification: " ++ m
        smtpCode := none
        method := lit "smtp_rcpt_failed" }
  | .response code message =>
      if code = 250 then
        { email := addr
          existsFlag := .yes
          reason := lit "Mailbox exists and accepts mail"
          smtpCode := some code
          method := lit "smtp_rcpt" }
      else if code = 550 ∨ code = 551 ∨ code = 553 then
        { email := addr
          existsFlag := .no
          reason := message
          smtpCode := some code
          method := lit "smtp_rcpt" }
      else
        { email := addr
          existsFlag := .unknown
          reason := message
          smtpCode := some code
          method := lit "smtp_rcpt" }

/-!
## Sending (`email_client.py` lines 534-660, `send_email`)
-/

/-- Environment of one `send_email` call: the account user name, the network
outcome the verifier would observe for the recipient, the stored signatures
(`get_signature`), and whether the SMTP delivery and the IMAP append to the
Sent folder succeed. -/
structure SendEnv where
  username : Str
  probe : ProbeOutcome
  getSignature : Str → Option Str
  smtpOk : Bool
  appendOk : Bool

/-- One `MIMEText` part of the outgoing `multipart/alternative` message. -/
structure MimePart where
  content : Str
  subtype : Str
deriving Repr, DecidableEq

/-- Signature-merge step of `send_email` (lines 578-592): compute
`final_body` and `is_html_signature`.  The Python guard `if signature:` is
falsy for both an absent and an empty stored signature, leaving the body
untouched.  A nonempty stored signature whose stripped text starts with `<`
is treated as HTML and wrapped around the body with newlines converted to
`<br>`; a nonempty plain signature is appended after a blank line. -/
def signatureMerge (useSignature : Bool) (storedSig : Option Str)
    (body : Str) : Str × Bool :=
  if useSignature then
    match storedSig with
    | some signatureText =>
        if signatureText = [] then (body, false)
        else if (pyStrip signatureText).head? = some '<' then
          (lit "<div>" ++ pyReplaceChar body '\n' (lit "<br>") ++ lit "</div>" ++
            signatureText, true)
        else (body ++ lit "\n\n" ++ signatureText, false)
    | none => (body, false)
  else (body, false)

/-- Message-assembly step of `send_email` (lines 594-613): a plain part with
the original body is always attached; with an HTML signature an HTML part
with `final_body` is added, while with a plain signature the payload is
replaced by a single plain part carrying `final_body`. -/
def buildMessageParts (useSignature : Bool) (storedSig : Option Str)
    (body : Str) : List MimePart :=
  let merged := signatureMerge useSignature storedSig body
  let finalBody := merged.1
  let isHtmlSignature := merged.2
  if isHtmlSignature then
    [{ content := body, subtype := lit "plain" },
     { content := finalBody, subtype := lit "html" }]
  else if useSignature then
    [{ content := finalBody, subtype := lit "plain" }]
  else
    [{ content := body, subtype := lit "plain" }]

/-- Python `f"{from_name} <{self.username}>" if from_name else self.username`. -/
def mkFromHeader (fromName : Option Str) (username : Str) : Str :=
  match fromName with
  | some n => n ++ lit " <" ++ username ++ lit ">"
  | none => username

/-- Result dictionary of `send_email` (each optional field models a key that
is present only on some paths). -/
structure SendResult where
  status : Str
  toAddr : Str
  errMsg : Option Str
  subject : Option Str
  fromHeader : Option Str
  savedToSent : Option Bool
  ccField : Option Str
  verification : Option VerificationResult
deriving Repr, DecidableEq

/-- Observable trace of one `send_email` call: whether the SMTP transport
submission was invoked, whether the Sent-folder append was attempted and
actually succeeded, the parts of the assembled message (absent when the send
was aborted before assembly), and the returned dictionary (`none` models a
raised exception). -/
structure SendTrace where
  smtpInvoked : Bool
  appendAttempted : Bool
  appendSucceeded : Bool
  messageParts : Option (List MimePart)
  outcome : Option SendResult
deriving Repr, DecidableEq

/-- Arguments of `send_email`, with the Python default values. -/
structure SendArgs where
  toAddr : Str
  subject : Str
  body : Str
  fromName : Option Str := none
  cc : Option Str := none
  saveToSent : Bool := true
  verifyRecipient : Bool := true
  useSignature : Bool := true
  signatureName : Str := lit "default"

/-- Embedding of `ArubaEmailClient.send_email`.  Verification runs first when
requested and aborts with a `"failed"` result when the recipient does not
exist; otherwise the signature is merged, the message assembled, SMTP
delivery attempted (a delivery failure re-raises, modelled as `outcome =
none`), the Sent-folder append attempted best-effort, and a `"sent"` result
returned whose `saved_to_sent` key carries the `save_to_sent` argument. -/
def send_email (env : SendEnv) (a : SendArgs) : SendTrace :=
  let verification? :=
    if a.verifyRecipient then some (verify_email_exists a.toAddr env.probe)
    else none
  if a.verifyRecipient = true ∧
      (verify_email_exists a.toAddr env.probe).existsFlag = .no then
    { smtpInvoked := false
      appendAttempted := false
      appendSucceeded := false
      messageParts := none
      outcome := some { status := lit "failed"
                        toAddr := a.toAddr
                        errMsg := some (lit "Recipient email does not exist")
                        subject := none
                        fromHeader := none
                        savedToSent := none
                        ccField := none
                        verification := verification? } }
  else
    let storedSig :=
      if a.useSignature then env.getSignature a.signatureName else none
    let parts := buildMessageParts a.useSignature storedSig a.body
    if env.smtpOk = false then
      { smtpInvoked := true
        appendAttempted := false
        appendSucceeded := false
        messageParts := some parts
        outcome := none }
    else
      { smtpInvoked := true
        appendAttempted := a.saveToSent
        appendSucceeded := a.saveToSent && env.appendOk
        messageParts := some parts
        outcome := some { status := lit "sent"
                          toAddr := a.toAddr
                          errMsg := none
                          subject := some a.subject
                          fromHeader := some (mkFromHeader a.fromName env.username)
                          savedToSent := some a.saveToSent
                          ccField := match a.cc with
                                     | some c => if c = [] then none else some c
                                     | none => none
                          verification := verification? } }

/-!
## Concrete inputs used by the claim theorems and witnesses
-/

/-- A body part of a concrete multipart message: `text/plain`, no
disposition. -/
def exPlainPart : Msg :=
  .leaf { contentType := lit "text/plain"
          contentDisposition := lit ""
          filename := none
          payload := some [72, 105]
          rawPayloadStr := []
          headers := [] }

/-- An attachment part of a concrete multipart message: a PDF with an
attachment disposition and a filename. -/
def exPdfPart : Msg :=
  .leaf { contentType := lit "application/pdf"
          contentDisposition := lit "attachment; filename=\"report.pdf\""
          filename := some (lit "report.pdf")
          payload := some [37, 80, 68, 70]
          rawPayloadStr := []
          headers := [] }

/-- A concrete multipart message with one body part and one attachment. -/
def exAttachMsg : Msg :=
  .multi { contentType := lit "multipart/mixed"
           contentDisposition := lit ""
           filename := none
           payload := none
           rawPayloadStr := []
           headers := [] }
    [exPlainPart, exPdfPart]

/-- Concrete library functions: identity decoding. -/
def libsId : Libs :=
  { htmlToText := fun s => s
    decodeHeader := fun s => s
    decodeUtf8 := fun _ => [] }

/-- A minimal single-part plain message. -/
def exLeafMsg : Msg :=
  .leaf { contentType := lit "text/plain"
          contentDisposition := lit ""
          filename := none
          payload := some []
          rawPayloadStr := []
          headers := [] }

/-- A concrete folder with five messages carrying ids 10 to 14 in mailbox
order. -/
def mbEx : Mailbox :=
  [(10, exLeafMsg), (11, exLeafMsg), (12, exLeafMsg),
   (13, exLeafMsg), (14, exLeafMsg)]

/-- Library functions for the body-selection witness: payload tag 1 decodes
to an HTML fragment, tag 2 to plain text, and the html conversion prepends a
visible marker. -/
def libsBody : Libs :=
  { htmlToText := fun s => '!' :: s
    decodeHeader := fun s => s
    decodeUtf8 := fun bs =>
      if bs = [1] then lit "<p>H</p>"
      else if bs = [2] then lit "plain" else [] }

/-- A concrete multipart message holding both an html part and a plain
part. -/
def exBothMsg : Msg :=
  .multi { contentType := lit "multipart/alternative"
           contentDisposition := lit ""
           filename := none
           payload := none
           rawPayloadStr := []
           headers := [] }
    [.leaf { contentType := lit "text/plain"
             contentDisposition := lit ""
             filename := none
             payload := some [2]
             rawPayloadStr := []
             headers := [] },
     .leaf { contentType := lit "text/html"
             contentDisposition := lit ""
             filename := none
             payload := some [1]
             rawPayloadStr := []
             headers := [] }]

/-- Library functions whose decoder yields a 5001-character text, for the
truncation witness. -/
def libsLong : Libs :=
  { htmlToText := fun s => s
    decodeHeader := fun s => s
    decodeUtf8 := fun _ => List.replicate 5001 'a' }

/-- Send environment in which SMTP delivery succeeds but the append to the
Sent folder fails. -/
def envAppendFail : SendEnv :=
  { username := lit "me@aruba.it"
    probe := .response 250 (lit "Requested mail action okay")
    getSignature := fun _ => none
    smtpOk := true
    appendOk := false }

/-- Concrete arguments for a plain send (all Python defaults). -/
def argsPlain : SendArgs :=
  { toAddr := lit "dest@example.com"
    subject := lit "subj"
    body := lit "Hi" }

/-- Send environment whose recipient probe answers 550 (mailbox does not
exist). -/
def envReject : SendEnv :=
  { username := lit "me@aruba.it"
    probe := .response 550 (lit "No such user")
    getSignature := fun _ => none
    smtpOk := true
    appendOk := true }

/-- Send environment whose recipient probe fails at the MX lookup. -/
def envMxFail : SendEnv :=
  { username := lit "me@aruba.it"
    probe := .mxFailure
    getSignature := fun _ => none
    smtpOk := true
    appendOk := true }

/-- Send environment storing the plain-text signature of the specification
scenario. -/
def envPlainSig : SendEnv :=
  { username := lit "me@aruba.it"
    probe := .response 250 (lit "ok")
    getSignature := fun _ => some (lit "—\nJohn")
    smtpOk := true
    appendOk := true }

/-- Send environment storing the HTML signature of the specification
scenario. -/
def envHtmlSig : SendEnv :=
  { username := lit "me@aruba.it"
    probe := .response 250 (lit "ok")
    getSignature := fun _ => some (lit "<p>John</p>")
    smtpOk := true
    appendOk := true }

/-- Send environment storing the empty string as the signature. -/
def envEmptySig : SendEnv :=
  { username := lit "me@aruba.it"
    probe := .response 250 (lit "ok")
    getSignature := fun _ => some []
    smtpOk := true
    appendOk := true }

/-- Concrete send arguments with body `"Hi"` and verification switched off. -/
def argsHi : SendArgs :=
  { toAddr := lit "dest@example.com"
    subject := lit "subj"
    body := lit "Hi"
    verifyRecipient := false }

/-- A concrete signature store holding one unrelated entry. -/
def stOther : SigStore := some [(lit "other", lit "Bye\nO")]

/-!
## Claim theorems
-/

/-- C1: the claim says `download_attachment` locates the attachment by the
same index numbering that `_extract_attachments_info` assigned.  On the
concrete message `exAttachMsg` (one body part, one PDF attachment) the
enumeration labels the only attachment with walk position 2, yet downloading
index 2 fails, while the attachment is actually reachable at download index 0:
the two functions number attachments differently. -/
theorem claim_C1_attachment_index_numbering :
  extractAttachmentsInfo (fun s => s) exAttachMsg =
      [{ index := 2, filename := lit "report.pdf",
         contentType := lit "application/pdf", size := 4 }] ∧
  downloadAttachment (fun s => s) exAttachMsg 2 = none ∧
  (downloadAttachment (fun s => s) exAttachMsg 0).map DownloadResult.filename
      = some (lit "report.pdf") := by
  decide

/-- C6: the body field of a parsed message is exactly the first 5000
characters of the extracted body text; bodies no longer than 5000 characters
are returned unmodified. -/
theorem claim_C6_body_truncation (libs : Libs) (msg : Msg) :
  (parseEmail libs msg).body = (extractBody libs msg).take 5000 ∧
  (5000 < (extractBody libs msg).length →
    (parseEmail libs msg).body.length = 5000) ∧
  ((extractBody libs msg).length ≤ 5000 →
    (parseEmail libs msg).body = extractBody libs msg) := by
  refine ⟨rfl, fun h => ?_, fun h => ?_⟩
  · show ((extractBody libs msg).take 5000).length = 5000
    rw [List.length_take]
    exact Nat.min_eq_left (Nat.le_of_lt h)
  · show (extractBody libs msg).take 5000 = extractBody libs msg
    exact List.take_of_length_le h

/-- Witness for C6: a decoder yielding 5001 characters is capped at exactly
5000, and a short body passes through unmodified. -/
theorem claim_C6_body_truncation_witness :
  (5000 < (extractBody libsLong exLeafMsg).length ∧
    (parseEmail libsLong exLeafMsg).body.length = 5000) ∧
  ((extractBody libsId exLeafMsg).length ≤ 5000 ∧
    (parseEmail libsId exLeafMsg).body = extractBody libsId exLeafMsg) := by
  have h1 : 5000 < (extractBody libsLong exLeafMsg).length := by
    rw [show extractBody libsLong exLeafMsg = List.replicate 5001 'a' from rfl,
        List.length_replicate]
    decide
  have h2 : (extractBody libsId exLeafMsg).length ≤ 5000 := by decide
  exact ⟨⟨h1, (claim_C6_body_truncation libsLong exLeafMsg).2.1 h1⟩,
         ⟨h2, (claim_C6_body_truncation libsId exLeafMsg).2.2 h2⟩⟩

/-- C9: `verify_email_exists` classifies response code 250 as exists, codes
550/551/553 as not existing, any other code as unknown, and any socket/SMTP
error or MX lookup failure as unknown. -/
theorem claim_C9_verify_classification (addr m e : Str) (c : Nat) :
  (verify_email_exists addr (.response 250 m)).existsFlag = .yes ∧
  (c = 550 ∨ c = 551 ∨ c = 553 →
    (verify_email_exists addr (.response c m)).existsFlag = .no) ∧
  (c ≠ 250 → ¬(c = 550 ∨ c = 551 ∨ c = 553) →
    (verify_email_exists addr (.response c m)).existsFlag = .unknown) ∧
  (verify_email_exists addr (.smtpError e)).existsFlag = .unknown ∧
  (verify_email_exists addr .mxFailure).existsFlag = .unknown := by
  refine ⟨rfl, fun h => ?_, fun h1 h2 => ?_, rfl, rfl⟩
  · rcases h with h | h | h <;> subst h <;> rfl
  · simp [verify_email_exists, h1, h2]

/-- Witness for C9: code 550 yields does-not-exist and code 421 yields
unknown. -/
theorem claim_C9_verify_classification_witness :
  (verify_email_exists (lit "a@b.com")
      (.response 550 (lit "No such user"))).existsFlag = .no ∧
  (verify_email_exists (lit "a@b.com")
      (.response 421 (lit "busy"))).existsFlag = .unknown :=
  ⟨(claim_C9_verify_classification (lit "a@b.com") (lit "No such user")
      (lit "x") 550).2.1 (Or.inl rfl),
   (claim_C9_verify_classification (lit "a@b.com") (lit "busy")
      (lit "x") 421).2.2.1 (by decide) (by decide)⟩

/-- C2 counterexample: with SMTP delivery succeeding and the Sent-folder
append failing, the returned result still claims `saved_to_sent = true`: the
result does not indicate whether the Sent-folder copy actually succeeded, it
merely echoes the request flag. -/
theorem claim_C2_counterexample :
  (send_email envAppendFail argsPlain).appendSucceeded = false ∧
  (send_email envAppendFail argsPlain).outcome.map SendResult.status
      = some (lit "sent") ∧
  (send_email envAppendFail argsPlain).outcome.map SendResult.savedToSent
      = some (some true) := by
  decide

/-- C2 as amended: when `save_to_sent = true`, SMTP delivery succeeds and the
send was not aborted by verification, a failing Sent-folder append does not
fail the operation (the call returns status `"sent"` and does not raise), but
the returned `saved_to_sent` field merely echoes the request flag (`true`)
regardless of whether the append actually succeeded. -/
theorem claim_C2_append_best_effort (env : SendEnv) (a : SendArgs)
    (hs : a.saveToSent = true) (hok : env.smtpOk = true)
    (hnv : ¬(a.verifyRecipient = true ∧
      (verify_email_exists a.toAddr env.probe).existsFlag = .no)) :
  (send_email env a).outcome.map SendResult.status = some (lit "sent") ∧
  (send_email env a).outcome.map SendResult.savedToSent = some (some true) ∧
  (send_email env a).appendAttempted = true ∧
  (send_email env a).appendSucceeded = env.appendOk := by
  simp [send_email, hnv, hok, hs]

/-- Witness for the amended C2, at the concrete environment where the append
fails. -/
theorem claim_C2_append_best_effort_witness :
  argsPlain.saveToSent = true ∧ envAppendFail.smtpOk = true ∧
  ¬(argsPlain.verifyRecipient = true ∧
    (verify_email_exists argsPlain.toAddr envAppendFail.probe).existsFlag
      = .no) ∧
  (send_email envAppendFail argsPlain).outcome.map SendResult.savedToSent
      = some (some true) ∧
  (send_email envAppendFail argsPlain).appendSucceeded = envAppendFail.appendOk :=
  ⟨rfl, rfl, by decide,
   (claim_C2_append_best_effort envAppendFail argsPlain rfl rfl (by decide)).2.1,
   (claim_C2_append_best_effort envAppendFail argsPlain rfl rfl (by decide)).2.2.2⟩

/-- C3: with `verify_recipient = true`, a verification answer of
does-not-exist prevents the SMTP transport submission entirely and the call
returns status `"failed"` carrying the verification outcome, while an
`unknown` answer lets the send proceed to the transport. -/
theorem claim_C3_verification_gate (env : SendEnv) (a : SendArgs)
    (hv : a.verifyRecipient = true) :
  ((verify_email_exists a.toAddr env.probe).existsFlag = .no →
    (send_email env a).smtpInvoked = false ∧
    (send_email env a).outcome.map SendResult.status = some (lit "failed") ∧
    (send_email env a).outcome.map SendResult.verification
        = some (some (verify_email_exists a.toAddr env.probe))) ∧
  ((verify_email_exists a.toAddr env.probe).existsFlag = .unknown →
    (send_email env a).smtpInvoked = true) := by
  constructor
  · intro hno
    simp [send_email, hv, hno]
  · intro hunk
    have hne : ¬ (verify_email_exists a.toAddr env.probe).existsFlag = .no := by
      rw [hunk]; exact fun h => by cases h
    by_cases hok : env.smtpOk = false <;> simp [send_email, hv, hne, hok]

/-- Witness for C3: a 550 probe answer aborts before SMTP with status
`"failed"`, and an MX-lookup failure (unknown) proceeds to SMTP. -/
theorem claim_C3_verification_gate_witness :
  argsPlain.verifyRecipient = true ∧
  (verify_email_exists argsPlain.toAddr envReject.probe).existsFlag = .no ∧
  (send_email envReject argsPlain).smtpInvoked = false ∧
  (send_email envReject argsPlain).outcome.map SendResult.status
      = some (lit "failed") ∧
  (verify_email_exists argsPlain.toAddr envMxFail.probe).existsFlag
      = .unknown ∧
  (send_email envMxFail argsPlain).smtpInvoked = true := by
  refine ⟨rfl, by decide, ?_, ?_, by decide, ?_⟩
  · exact ((claim_C3_verification_gate envReject argsPlain rfl).1 (by decide)).1
  · exact ((claim_C3_verification_gate envReject argsPlain rfl).1 (by decide)).2.1
  · exact (claim_C3_verification_gate envMxFail argsPlain rfl).2 (by decide)

/-- C8 counterexample: with the empty string stored as the signature, the
claim's plain branch predicts a single plain part `body + "\n\n" +
signature`, but the program treats the falsy signature as absent (`if
signature:`) and keeps the bare body as the only plain part. -/
theorem claim_C8_counterexample :
  (send_email envEmptySig argsHi).messageParts =
      some [{ content := lit "Hi", subtype := lit "plain" }] ∧
  (send_email envEmptySig argsHi).messageParts ≠
      some [{ content := lit "Hi" ++ lit "\n\n" ++ ([] : Str),
              subtype := lit "plain" }] := by
  decide

/-- C8 as amended: with a nonempty stored signature, an HTML signature
(stripped text starting with `<`) yields a plain part carrying the
unmodified body plus an HTML part `<div>` + body-with-newlines-as-`<br>` +
`</div>` + signature, while a nonempty plain signature is appended to the
single plain part after a blank line; an empty stored signature is treated
as absent and the single plain part carries the body unchanged. -/
theorem claim_C8_signature_merge (env : SendEnv) (a : SendArgs) (sig : Str)
    (hu : a.useSignature = true)
    (hsig : env.getSignature a.signatureName = some sig)
    (hnv : ¬(a.verifyRecipient = true ∧
      (verify_email_exists a.toAddr env.probe).existsFlag = .no)) :
  (sig ≠ [] → (pyStrip sig).head? = some '<' →
    (send_email env a).messageParts =
      some [{ content := a.body, subtype := lit "plain" },
            { content := lit "<div>" ++ pyReplaceChar a.body '\n' (lit "<br>")
                ++ lit "</div>" ++ sig, subtype := lit "html" }]) ∧
  (sig ≠ [] → (pyStrip sig).head? ≠ some '<' →
    (send_email env a).messageParts =
      some [{ content := a.body ++ lit "\n\n" ++ sig,
              subtype := lit "plain" }]) ∧
  (sig = [] →
    (send_email env a).messageParts =
      some [{ content := a.body, subtype := lit "plain" }]) := by
  refine ⟨fun hne hh => ?_, fun hne hh => ?_, fun hemp => ?_⟩
  · by_cases hok : env.smtpOk = false <;>
      simp [send_email, hnv, hok, hu, hsig, buildMessageParts, signatureMerge,
        hne, hh]
  · by_cases hok : env.smtpOk = false <;>
      simp [send_email, hnv, hok, hu, hsig, buildMessageParts, signatureMerge,
        hne, hh]
  · by_cases hok : env.smtpOk = false <;>
      simp [send_email, hnv, hok, hu, hsig, buildMessageParts, signatureMerge,
        hemp]

/-- Witness for the amended C8, on the scenario of the specification plus
the empty-signature edge: plain signature appended after a blank line, HTML
signature wrapped around the body, empty signature skipped. -/
theorem claim_C8_signature_merge_witness :
  (lit "—\nJohn" ≠ [] ∧ (pyStrip (lit "—\nJohn")).head? ≠ some '<' ∧
    (send_email envPlainSig argsHi).messageParts =
      some [{ content := lit "Hi\n\n—\nJohn", subtype := lit "plain" }]) ∧
  (lit "<p>John</p>" ≠ [] ∧ (pyStrip (lit "<p>John</p>")).head? = some '<' ∧
    (send_email envHtmlSig argsHi).messageParts =
      some [{ content := lit "Hi", subtype := lit "plain" },
            { content := lit "<div>Hi</div><p>John</p>",
              subtype := lit "html" }]) ∧
  ((fun _ => some ([] : Str)) = envEmptySig.getSignature ∧
    (send_email envEmptySig argsHi).messageParts =
      some [{ content := lit "Hi", subtype := lit "plain" }]) := by
  refine ⟨⟨by decide, by decide, ?_⟩, ⟨by decide, by decide, ?_⟩, rfl, ?_⟩
  · have h := (claim_C8_signature_merge envPlainSig argsHi (lit "—\nJohn")
      rfl rfl (by decide)).2.1 (by decide) (by decide)
    rw [h]; decide
  · have h := (claim_C8_signature_merge envHtmlSig argsHi (lit "<p>John</p>")
      rfl rfl (by decide)).1 (by decide) (by decide)
    rw [h]; decide
  · exact (claim_C8_signature_merge envEmptySig argsHi []
      rfl rfl (by decide)).2.2 rfl

/-- Helper: mapping `Prod.fst` over a filterMap that tags each input with
itself recovers the input list, provided every lookup succeeds. -/
theorem filterMap_tag_map_fst {β γ : Type} (f : Nat → Option β)
    (g : Nat → β → γ) (ids : List Nat) (h : ∀ i ∈ ids, (f i).isSome) :
    (ids.filterMap (fun i => (f i).map (fun b => (i, g i b)))).map Prod.fst
      = ids := by
  induction ids with
  | nil => rfl
  | cons i ids ih =>
    obtain ⟨b, hb⟩ := Option.isSome_iff_exists.mp (h i (by simp))
    simp only [List.filterMap_cons, hb, Option.map_some', List.map_cons]
    exact congrArg (i :: ·) (ih (fun j hj => h j (by simp [hj])))

/-- Helper: every id produced by a mailbox search can be fetched back from
the same mailbox. -/
theorem fetchMsg_isSome_of_mem_search (mb : Mailbox) (crit : Msg → Bool)
    (i : Nat) (hi : i ∈ searchMailbox mb crit) : (fetchMsg mb i).isSome := by
  simp only [searchMailbox, List.mem_map] at hi
  obtain ⟨e, he, rfl⟩ := hi
  have hmem : e ∈ mb := (List.mem_filter.mp he).1
  have hfind : (mb.find? (fun p => decide (p.1 = e.1))).isSome :=
    List.find?_isSome.mpr ⟨e, hmem, by simp⟩
  simpa [fetchMsg] using hfind

/-- Helper: the ids tagged onto the records returned by the shared
list/search loop are exactly the reversed search result cut at the limit. -/
theorem listEmailsCore_map_fst (libs : Libs) (mb : Mailbox)
    (crit : Msg → Bool) (limit : Nat) :
    (listEmailsCore libs mb crit limit).map Prod.fst =
      (searchMailbox mb crit).reverse.take limit := by
  refine filterMap_tag_map_fst (fetchMsg mb) (fun _ raw => parseEmail libs raw)
    _ (fun i hi => ?_)
  refine fetchMsg_isSome_of_mem_search mb crit i ?_
  exact List.mem_reverse.mp (List.mem_of_mem_take hi)

/-- C4: with mailbox ids in ascending order, every list/search call returns
exactly `min(matching_count, limit)` records, ordered by descending id, and
the two operations behave identically. -/
theorem claim_C4_list_order_and_count (libs : Libs) (mb : Mailbox)
    (crit : Msg → Bool) (limit : Nat)
    (hsorted : (mb.map Prod.fst).Pairwise (· < ·)) :
  (list_emails libs mb crit limit).length
      = min ((mb.filter (fun e => crit e.2)).length) limit ∧
  ((list_emails libs mb crit limit).map Prod.fst).Pairwise (· > ·) ∧
  search_emails libs mb crit limit = list_emails libs mb crit limit := by
  have hfst := listEmailsCore_map_fst libs mb crit limit
  refine ⟨?_, ?_, rfl⟩
  · calc (list_emails libs mb crit limit).length
        = ((listEmailsCore libs mb crit limit).map Prod.fst).length :=
          (List.length_map _ _).symm
      _ = ((searchMailbox mb crit).reverse.take limit).length := by rw [hfst]
      _ = min ((mb.filter (fun e => crit e.2)).length) limit := by
          rw [List.length_take, List.length_reverse, searchMailbox,
            List.length_map, Nat.min_comm]
  · have hsearch : (searchMailbox mb crit).Pairwise (· < ·) :=
      hsorted.sublist ((List.filter_sublist mb).map Prod.fst)
    have hrev : ((searchMailbox mb crit).reverse).Pairwise (· > ·) :=
      List.pairwise_reverse.mpr hsearch
    have htake : ((searchMailbox mb crit).reverse.take limit).Pairwise (· > ·) :=
      hrev.sublist (List.take_sublist _ _)
    show ((listEmailsCore libs mb crit limit).map Prod.fst).Pairwise (· > ·)
    rw [hfst]
    exact htake

/-- Witness for C4: against matching ids `[10, 11, 12, 13, 14]` and limit 3
the records returned carry ids `[14, 13, 12]` in that order. -/
theorem claim_C4_list_order_and_count_witness :
  ((mbEx.map Prod.fst).Pairwise (· < ·)) ∧
  (list_emails libsId mbEx (fun _ => true) 3).length
      = min ((mbEx.filter (fun e => (fun _ => true) e.2)).length) 3 ∧
  (list_emails libsId mbEx (fun _ => true) 3).map Prod.fst = [14, 13, 12] := by
  refine ⟨by decide,
    (claim_C4_list_order_and_count libsId mbEx (fun _ => true) 3 (by decide)).1,
    by decide⟩

/-- Helper: after an in-place update of every entry keyed `k`, the first
entry keyed `k` carries the new value. -/
theorem find?_setMap_self (k v : Str) :
    ∀ (m : SigMap), m.any (fun p => decide (p.1 = k)) = true →
      ((m.map (fun p => if p.1 = k then (p.1, v) else p)).find?
        (fun p => decide (p.1 = k))) = some (k, v)
  | [], h => by simp at h
  | p :: t, h => by
    by_cases hp : p.1 = k
    · simp [hp]
    · have h' : t.any (fun p => decide (p.1 = k)) = true := by
        simpa [hp] using h
      simpa [hp] using find?_setMap_self k v t h'

/-- Helper: looking up the key just set returns the value just written. -/
theorem dictGet_dictSet_self (m : SigMap) (k v : Str) :
    dictGet (dictSet m k v) k = some v := by
  unfold dictGet dictSet
  by_cases hany : m.any (fun p => decide (p.1 = k)) = true
  · rw [if_pos hany, find?_setMap_self k v m hany]
    rfl
  · rw [if_neg hany, List.find?_append]
    have hnone : m.find? (fun p => decide (p.1 = k)) = none := by
      rw [List.find?_eq_none]
      intro x hx hxk
      exact hany (List.any_eq_true.mpr ⟨x, hx, hxk⟩)
    simp [hnone]

/-- Helper: the key just set is present. -/
theorem any_dictSet_self (m : SigMap) (k v : Str) :
    (dictSet m k v).any (fun p => decide (p.1 = k)) = true := by
  unfold dictSet
  by_cases hany : m.any (fun p => decide (p.1 = k)) = true
  · rw [if_pos hany]
    obtain ⟨p, hp, hpk⟩ := List.any_eq_true.mp hany
    simp only [decide_eq_true_eq] at hpk
    refine List.any_eq_true.mpr ⟨(p.1, v), List.mem_map.mpr ⟨p, hp, by simp [hpk]⟩, by simp [hpk]⟩
  · rw [if_neg hany]
    simp [List.any_append]

/-- Helper: a deleted key is no longer found. -/
theorem dictGet_dictDel_self (m : SigMap) (k : Str) :
    dictGet (dictDel m k) k = none := by
  have hnone : (dictDel m k).find? (fun p => decide (p.1 = k)) = none := by
    rw [List.find?_eq_none]
    intro x hx hxk
    have hne := (List.mem_filter.mp hx).2
    simp only [decide_eq_true_eq] at hne hxk
    exact hne hxk
  simp [dictGet, hnone]

/-- Helper: filtering out the entries keyed `k` does not change which entry
is found first for a different key. -/
theorem find?_filter_keyNe (k k' : Str) (h : k' ≠ k) :
    ∀ (t : SigMap),
      ((t.filter (fun p => decide (p.1 ≠ k))).find?
        (fun p => decide (p.1 = k')))
        = t.find? (fun p => decide (p.1 = k'))
  | [] => rfl
  | p :: t => by
    by_cases hpk : p.1 = k
    · have hne : ¬ p.1 = k' := fun hc => h (hc.symm.trans hpk)
      rw [List.filter_cons_of_neg (by simpa using hpk),
        List.find?_cons_of_neg _ (by simpa using hne)]
      exact find?_filter_keyNe k k' h t
    · rw [List.filter_cons_of_pos (by simpa using hpk)]
      by_cases hpk' : p.1 = k'
      · rw [List.find?_cons_of_pos _ (by simpa using hpk'),
          List.find?_cons_of_pos _ (by simpa using hpk')]
      · rw [List.find?_cons_of_neg _ (by simpa using hpk'),
          List.find?_cons_of_neg _ (by simpa using hpk')]
        exact find?_filter_keyNe k k' h t

/-- Helper: deleting one key leaves every other lookup unchanged. -/
theorem dictGet_dictDel_ne (m : SigMap) (k k' : Str) (h : k' ≠ k) :
    dictGet (dictDel m k) k' = dictGet m k' := by
  unfold dictGet dictDel
  rw [find?_filter_keyNe k k' h m]

/-- C7: saving a signature under a name and reading it back returns the same
text; deleting that name then reports success, the name reads back as
absent, and every other stored name keeps its previous text. -/
theorem claim_C7_signature_roundtrip (st : SigStore) (T X : Str) :
  get_signature X (save_signature T X st) = some T ∧
  (delete_signature X (save_signature T X st)).1 = true ∧
  get_signature X (delete_signature X (save_signature T X st)).2 = none ∧
  (∀ Y, Y ≠ X →
    get_signature Y (delete_signature X (save_signature T X st)).2
      = get_signature Y (save_signature T X st)) := by
  have hany := any_dictSet_self (st.getD []) X T
  refine ⟨dictGet_dictSet_self _ _ _, ?_, ?_, ?_⟩
  · simp [delete_signature, save_signature, hany]
  · simp only [delete_signature, save_signature, if_pos hany, get_signature]
    exact dictGet_dictDel_self _ _
  · intro Y hY
    simp only [delete_signature, save_signature, if_pos hany, get_signature]
    exact dictGet_dictDel_ne _ _ _ hY

/-- Witness for C7: round trip of the name `"default"` against a store that
already holds the unrelated name `"other"`. -/
theorem claim_C7_signature_roundtrip_witness :
  get_signature (lit "default")
      (save_signature (lit "Best,\nG") (lit "default") stOther)
    = some (lit "Best,\nG") ∧
  (delete_signature (lit "default")
      (save_signature (lit "Best,\nG") (lit "default") stOther)).1 = true ∧
  get_signature (lit "default")
      (delete_signature (lit "default")
        (save_signature (lit "Best,\nG") (lit "default") stOther)).2 = none ∧
  lit "other" ≠ lit "default" ∧
  get_signature (lit "other")
      (delete_signature (lit "default")
        (save_signature (lit "Best,\nG") (lit "default") stOther)).2
    = get_signature (lit "other")
        (save_signature (lit "Best,\nG") (lit "default") stOther) := by
  have h := claim_C7_signature_roundtrip stOther (lit "Best,\nG") (lit "default")
  exact ⟨h.1, h.2.1, h.2.2.1, by decide, h.2.2.2 (lit "other") (by decide)⟩

/-- C10: both tool-protocol operations cap the effective limit at 50, so at
most 50 records are ever returned, for every requested limit. -/
theorem claim_C10_server_limit_cap (libs : Libs) (mb : Mailbox)
    (crit : Msg → Bool) (limit : Nat) :
  (serverListEmails libs mb crit limit).length ≤ 50 ∧
  (serverSearchEmails libs mb crit limit).length ≤ 50 := by
  constructor <;>
  · refine le_trans (List.length_filterMap_le _ _)
      (le_trans (List.length_take_le _ _) ?_)
    exact Nat.min_le_right _ _

theorem collectLoop_snd (libs : Libs) :
    ∀ (parts : List Msg) (pb hb : Str),
      (collectLoop libs parts pb hb).2 =
        if hb = [] then
          ((parts.filterMap (partText libs (lit "text/html"))).find?
            (fun s => !s.isEmpty)).getD []
        else hb
  | [], pb, hb => by by_cases h : hb = [] <;> simp [collectLoop, h]
  | part :: rest, pb, hb => by
    cases hp : part.payloadBytes with
    | none =>
      have hpt : partText libs (lit "text/html") part = none := by
        simp [partText, hp]
      simp only [collectLoop, hp, List.filterMap_cons, hpt]
      exact collectLoop_snd libs rest pb hb
    | some bytes =>
      by_cases hct : part.data.contentType = lit "text/html"
      · have hpt : partText libs (lit "text/html") part
            = some (libs.decodeUtf8 bytes) := by simp [partText, hct, hp]
        by_cases hhb : hb = []
        · subst hhb
          simp only [collectLoop, hp]
          rw [if_pos ⟨hct, trivial⟩]
          rw [collectLoop_snd libs rest pb (libs.decodeUtf8 bytes)]
          simp only [List.filterMap_cons, hpt]
          by_cases hd : libs.decodeUtf8 bytes = []
          · rw [if_pos hd, if_pos trivial, List.find?_cons_of_neg _ (by simp [hd])]
          · rw [if_neg hd, if_pos trivial, List.find?_cons_of_pos _ (by simp [hd])]
            rfl
        · simp only [collectLoop, hp]
          rw [if_neg (fun hc => hhb hc.2),
            if_neg (fun hc => absurd (hct.symm.trans hc.1) (by decide))]
          rw [collectLoop_snd libs rest pb hb, if_neg hhb, if_neg hhb]
      · have hpt : partText libs (lit "text/html") part = none := by
          simp [partText, hct]
        simp only [collectLoop, hp, List.filterMap_cons, hpt]
        rw [if_neg (fun hc => hct hc.1)]
        by_cases hct2 : part.data.contentType = lit "text/plain" ∧ pb = []
        · rw [if_pos hct2]
          exact collectLoop_snd libs rest (libs.decodeUtf8 bytes) hb
        · rw [if_neg hct2]
          exact collectLoop_snd libs rest pb hb

theorem collectLoop_fst (libs : Libs) :
    ∀ (parts : List Msg) (pb hb : Str),
      (collectLoop libs parts pb hb).1 =
        if pb = [] then
          ((parts.filterMap (partText libs (lit "text/plain"))).find?
            (fun s => !s.isEmpty)).getD []
        else pb
  | [], pb, hb => by by_cases h : pb = [] <;> simp [collectLoop, h]
  | part :: rest, pb, hb => by
    cases hp : part.payloadBytes with
    | none =>
      have hpt : partText libs (lit "text/plain") part = none := by
        simp [partText, hp]
      simp only [collectLoop, hp, List.filterMap_cons, hpt]
      exact collectLoop_fst libs rest pb hb
    | some bytes =>
      by_cases hctp : part.data.contentType = lit "text/plain"
      · have hcth : ¬ (part.data.contentType = lit "text/html" ∧ hb = []) :=
          fun hc => absurd (hctp.symm.trans hc.1) (by decide)
        have hpt : partText libs (lit "text/plain") part
            = some (libs.decodeUtf8 bytes) := by simp [partText, hctp, hp]
        by_cases hpb : pb = []
        · subst hpb
          simp only [collectLoop, hp]
          rw [if_neg hcth, if_pos ⟨hctp, trivial⟩]
          rw [collectLoop_fst libs rest (libs.decodeUtf8 bytes) hb]
          simp only [List.filterMap_cons, hpt]
          by_cases hd : libs.decodeUtf8 bytes = []
          · rw [if_pos hd, if_pos trivial, List.find?_cons_of_neg _ (by simp [hd])]
          · rw [if_neg hd, if_pos trivial, List.find?_cons_of_pos _ (by simp [hd])]
            rfl
        · simp only [collectLoop, hp]
          rw [if_neg hcth, if_neg (fun hc => hpb hc.2)]
          rw [collectLoop_fst libs rest pb hb, if_neg hpb, if_neg hpb]
      · have hpt : partText libs (lit "text/plain") part = none := by
          simp [partText, hctp]
        simp only [collectLoop, hp, List.filterMap_cons, hpt]
        by_cases hcth : part.data.contentType = lit "text/html" ∧ hb = []
        · rw [if_pos hcth]
          exact collectLoop_fst libs rest pb (libs.decodeUtf8 bytes)
        · rw [if_neg hcth, if_neg (fun hc => hctp hc.1)]
          exact collectLoop_fst libs rest pb hb



/-- C5: for a multipart message, whenever some html part yields nonempty
decoded text, the extracted body is derived from the first such html part
via the html-to-text conversion; the plain text is used only when no html
part yields text, and the body is empty when neither does. -/
theorem claim_C5_html_preferred (libs : Libs) (msg : Msg)
    (hm : msg.isMultipart = true) :
  (∀ h, firstHtmlText libs msg = some h →
    extractBody libs msg = libs.htmlToText h) ∧
  (firstHtmlText libs msg = none →
    extractBody libs msg = (firstPlainText libs msg).getD []) := by
  have hsnd := collectLoop_snd libs msg.walk [] []
  have hfst := collectLoop_fst libs msg.walk [] []
  rw [if_pos rfl] at hsnd hfst
  constructor
  · intro h hfind
    have hfind' : (msg.walk.filterMap (partText libs (lit "text/html"))).find?
        (fun s => !s.isEmpty) = some h := hfind
    have hne : h ≠ [] := by simpa using List.find?_some hfind'
    have hhb : (collectLoop libs msg.walk [] []).2 = h := by
      rw [hsnd, hfind']
      rfl
    simp only [extractBody, hm, eq_self_iff_true, if_true]
    rw [hhb, if_pos hne]
  · intro hnone
    have hnone' : (msg.walk.filterMap (partText libs (lit "text/html"))).find?
        (fun s => !s.isEmpty) = none := hnone
    have hhb : (collectLoop libs msg.walk [] []).2 = [] := by
      rw [hsnd, hnone']
      rfl
    simp only [extractBody, hm, eq_self_iff_true, if_true]
    rw [hhb, if_neg (fun hc => hc rfl), hfst]
    cases hfp : (msg.walk.filterMap (partText libs (lit "text/plain"))).find?
        (fun s => !s.isEmpty) with
    | none =>
      rw [show firstPlainText libs msg = none from hfp]
      simp
    | some p =>
      have hpne : p ≠ [] := by simpa using List.find?_some hfp
      rw [show firstPlainText libs msg = some p from hfp]
      simp [hpne]

/-- Witness for C5: on a concrete message carrying both a plain part and an
html part, the body is the converted html text, not the plain text. -/
theorem claim_C5_html_preferred_witness :
  exBothMsg.isMultipart = true ∧
  firstHtmlText libsBody exBothMsg = some (lit "<p>H</p>") ∧
  firstPlainText libsBody exBothMsg = some (lit "plain") ∧
  extractBody libsBody exBothMsg = lit "!<p>H</p>" := by
  refine ⟨rfl, by decide, by decide, ?_⟩
  have h := (claim_C5_html_preferred libsBody exBothMsg rfl).1
    (lit "<p>H</p>") (by decide)
  rw [h]
  decide

end Aruba
